import Mathlib

/-!
Shallow embedding of `fishroom/web/handlers.py` (the message distribution
engine of the Fishroom relay): the web post handler, the API post handler
(its `prepare`/`post` pipeline), and the API long-polling handler with its
per-token durable queue, together with proofs of the behavioural claims
made by the specification.

Conventions of the embedding:
* Python dict lookups on the static configuration become association-list
  lookups (`List (String × _)`).
* `json.loads` is not re-implemented: a handler receives the parse result
  as an `Option JsonData` oracle next to the raw body string, which is all
  the handlers inspect.
* Python truthiness on an optional string (`if not content:`) is the
  predicate "missing or empty string".
* Redis state touched by the long-polling handler is a map from token id
  to its pending list (the key `queue:{token_id}` is the token id here).
-/

/-- Message type tag (`models.MessageType`): `Text` or `Command`. -/
inductive MessageType where
  | Text
  | Command
deriving DecidableEq

/-- A chat message as constructed by the handlers (`models.Message`):
channel tag, sender, room, content, type and timestamp parts.  `content`
is optional because the API post handler can reach the constructor with a
missing `content` field. -/
structure Msg where
  channel : String
  sender : String
  room : String
  content : Option String
  mtype : MessageType
  date : String
  time : String
deriving DecidableEq

/-- One room binding from `config["bindings"]`; the only field the
handlers read is the optional `web_post` flag. -/
structure Binding where
  web_post : Option Bool
deriving DecidableEq

/-- The empty dict default of `config["bindings"].get(room, {})`. -/
def emptyBinding : Binding := ⟨none⟩

/-- The slice of the static `config` the handlers read: the room bindings
and `config.get("private_rooms", [])`. -/
structure Config where
  bindings : List (String × Binding)
  private_rooms : List String

/-- `room in config["bindings"]`. -/
def roomBound (cfg : Config) (room : String) : Bool :=
  (cfg.bindings.lookup room).isSome

/-- `room in config.get("private_rooms", [])`. -/
def roomPrivate (cfg : Config) (room : String) : Bool :=
  cfg.private_rooms.contains room

/-- The combined guard of lines 205-206 / 338-339 / 379-380:
`room not in config["bindings"] or room in config.get("private_rooms", [])`. -/
def roomRejected (cfg : Config) (room : String) : Bool :=
  !roomBound cfg room || roomPrivate cfg room

/-- `config["bindings"].get(room, {}).get("web_post", True)` (line 211). -/
def webPostFlag (cfg : Config) (room : String) : Bool :=
  (((cfg.bindings.lookup room).getD emptyBinding).web_post).getD true

/-- The JSON object fields the post handlers read out of a request body:
`content`, `nickname` (web) and `sender` (API).  A missing field is
`none`. -/
structure JsonData where
  content : Option String
  nickname : Option String
  sender : Option String
deriving DecidableEq

/-- Python truthiness test `not content` on `json_data.get("content", None)`:
true when the field is missing or the empty string. -/
def contentMissing : Option String → Bool
  | none => true
  | some s => s = ""

/-- The whitespace set of Python's `str.strip()`/`str.isspace()`: tab
through carriage return (U+0009-U+000D), the FS/GS/RS/US controls and the
space (U+001C-U+0020), NEL (U+0085), no-break space (U+00A0), Ogham space
(U+1680), the typographic spaces U+2000-U+200A, the line and paragraph
separators (U+2028, U+2029), narrow and medium spaces (U+202F, U+205F)
and the ideographic space (U+3000). -/
def pyWhitespace (c : Char) : Bool :=
  let n := c.toNat
  (0x9 ≤ n && n ≤ 0xd) || (0x1c ≤ n && n ≤ 0x20) ||
  n == 0x85 || n == 0xa0 || n == 0x1680 ||
  (0x2000 ≤ n && n ≤ 0x200a) ||
  n == 0x2028 || n == 0x2029 || n == 0x202f || n == 0x205f || n == 0x3000

/-- Python `str.strip()`: drop leading and trailing whitespace.  Written
over the character list so it evaluates by kernel reduction. -/
def pyStrip (s : String) : String :=
  ⟨((s.data.dropWhile pyWhitespace).reverse.dropWhile
      pyWhitespace).reverse⟩

/-- A word character of the regex class `\w` in the ASCII range:
`[A-Za-z0-9_]`, which agrees exactly with Python's `\w` on ASCII
characters.  The non-ASCII word characters of `re.UNICODE` (Unicode
letters and digits) live in the runtime's character tables and are
outside this model; every theorem that concludes a rejection from this
predicate therefore restricts itself to ASCII-leading senders, where the
predicate is exact. -/
def isWordChar (c : Char) : Bool :=
  c.isAlphanum || c = '_'

/-- `re.match(r'^\w', sender, flags=re.UNICODE)` (line 236): does the
string start with a word character?  Inherits `isWordChar`'s scope: exact
when the first character is ASCII, and a `true` answer is always sound
(an ASCII word character is a Python word character). -/
def startsWithWordChar (s : String) : Bool :=
  match s.data with
  | [] => false
  | c :: _ => isWordChar c

/-- Outcome of `PostMessageHandler.post`, one constructor per `finish`
site of the source. -/
inductive WebResult where
  | roomNotFound     -- 404 "Room not found"
  | postingDisabled  -- 403 "Web post is disabled."
  | badJson          -- 400 "Unable to parse JSON."
  | emptyContent     -- 400 "Cannot send empty message"
  | noNickname       -- 400 "Nickname must be set"
  | invalidSender    -- 400 "Invalid char found, ..."
  | ok               -- 200 "OK"
deriving DecidableEq

/-- HTTP status code attached to each `WebResult` by the source. -/
def WebResult.status : WebResult → Nat
  | .roomNotFound => 404
  | .postingDisabled => 403
  | .badJson => 400
  | .emptyContent => 400
  | .noNickname => 400
  | .invalidSender => 400
  | .ok => 200

/-- `ChannelType.Web` tag of the constructed message. -/
def channelWeb : String := "Web"

/-- `PostMessageHandler.post` (handlers.py lines 203-254).  Returns the
response outcome and the list of messages handed to the bus
(`mgb_im2fish.publish`).  `is_cmd` is `BaseBotInstance.is_cmd`, an
external predicate; `parsed` is the `json.loads` result of the request
body. -/
def post_message (cfg : Config) (is_cmd : String → Bool)
    (date time : String) (room : String) (parsed : Option JsonData) :
    WebResult × List Msg :=
  if roomRejected cfg room then (.roomNotFound, [])
  else if webPostFlag cfg room = false then (.postingDisabled, [])
  else
    match parsed with
    | none => (.badJson, [])
    | some jd =>
      if contentMissing jd.content then (.emptyContent, [])
      else
        let content := jd.content.getD ""
        let sender := pyStrip (jd.nickname.getD "")
        if sender = "" then (.noNickname, [])
        else if !startsWithWordChar sender then (.invalidSender, [])
        else
          let mtype := if is_cmd content then MessageType.Command else MessageType.Text
          (.ok, [{ channel := channelWeb, sender := sender, room := room,
                   content := some content, mtype := mtype,
                   date := date, time := time }])

/-- Outcome of the `APIPostMessageHandler` pipeline (`prepare` then
`post`), one constructor per first-`finish` site. -/
inductive ApiResult where
  | emptyRequest   -- 400 "Cannot handle empty request"  (prepare)
  | badJson        -- 400 "Unable to parse JSON."        (prepare)
  | roomNotFound   -- 404 "Room not found"
  | invalidToken   -- 403 "Invalid Token"
  | emptyContent   -- 400 "Cannot send empty message"
  | ok             -- 200 "OK"
deriving DecidableEq

/-- HTTP status code attached to each `ApiResult` by the source. -/
def ApiResult.status : ApiResult → Nat
  | .emptyRequest => 400
  | .badJson => 400
  | .roomNotFound => 404
  | .invalidToken => 403
  | .emptyContent => 400
  | .ok => 200

/-- `ChannelType.API` tag; the handler builds the channel tag
`"{}-{}".format(ChannelType.API, apiname)`. -/
def channelAPI (apiname : String) : String := "API" ++ "-" ++ apiname

/-- `APIPostMessageHandler` (handlers.py lines 363-410): the
`prepare`/`post` pipeline of one request.  Tornado runs `prepare` first;
when `prepare` calls `finish` the `post` body never runs.  Inputs:

* `authOk` — the result of `self.mgr.auth(token_id, token_key)`
  (`APIClientManager.auth`, an external credential check);
* `get_name` — `self.mgr.get_name`;
* `is_cmd` — `BaseBotInstance.is_cmd`, the external command-prefix
  predicate, applied to the optional `content` field as the source does;
* `body` — the raw request body, `parsed` — its `json.loads` result.

Returns the first response finished, and the list of messages handed to
the bus (`mgb_im2fish(msg)`, line 408).  Note the source has no `return`
after the empty-content `finish()` (lines 390-393): execution falls
through, constructs the message and hands it to the bus anyway, so the
`emptyContent` outcome still carries one published message. -/
def api_post_message (cfg : Config) (is_cmd : Option String → Bool)
    (authOk : Bool) (token_id : String) (get_name : String → String)
    (date time : String) (room : String)
    (body : String) (parsed : Option JsonData) : ApiResult × List Msg :=
  -- prepare (lines 365-376)
  if body = "" then (.emptyRequest, [])
  else
    match parsed with
    | none => (.badJson, [])
    | some jd =>
      -- post (lines 378-410)
      if roomRejected cfg room then (.roomNotFound, [])
      else if !authOk then (.invalidToken, [])
      else
        let apiname := get_name token_id
        let sender := jd.sender.getD apiname
        let mtype := if is_cmd jd.content then MessageType.Command
                     else MessageType.Text
        let msg : Msg := { channel := channelAPI apiname, sender := sender,
                           room := room, content := jd.content,
                           mtype := mtype, date := date, time := time }
        if contentMissing jd.content then
          -- 400 finished, but the missing return lets the publish happen
          (.emptyContent, [msg])
        else (.ok, [msg])

/-- Redis state seen by the long-polling handler: each token id's pending
list (`queue:{token_id}`).  An absent key is the empty list. -/
abbrev QState := List (String × List Msg)

/-- Pending list of a token: `llen`/`lrange` read of `queue:{token_id}`. -/
def qlookup (st : QState) (t : String) : List Msg :=
  (st.lookup t).getD []

/-- Replace (or create) the entry of token `t`. -/
def qset (st : QState) (t : String) (q : List Msg) : QState :=
  match st with
  | [] => [(t, q)]
  | (k, v) :: rest => if k = t then (t, q) :: rest else (k, v) :: qset rest t q

/-- `pr.delete(queue)` (line 349): drop the token's key. -/
def qdelete (st : QState) (t : String) : QState :=
  st.filter (fun p => !(p.1 = t))

/-- Modelled from the spec: `DurableQueue.Enqueue(token_id, message)`
(§4.3) — the producing side lives in the relay, outside `handlers.py` —
appends the message at the tail of the token's pending list (`rpush` on
`queue:{token_id}`). -/
def enqueue (st : QState) (t : String) (m : Msg) : QState :=
  qset st t (qlookup st t ++ [m])

/-- The queue-draining core of `APILongPollingHandler.get` (lines
344-354), run sequentially with no concurrent producer: `llen`; if
positive, `lrange 0 -1` then `delete`; otherwise `blpop timeout=10`,
which here can only time out and yield nothing.  Returns the drained
messages and the new redis state. -/
def drain (st : QState) (t : String) : List Msg × QState :=
  let q := qlookup st t
  if q.length > 0 then (q, qdelete st t)
  else ([], st)

/-- Outcome of `APILongPollingHandler.get`. -/
inductive PollResult where
  | invalidToken            -- 403 "Invalid Token"
  | roomNotFound            -- 404 "Room not found"
  | messages (ms : List Msg)  -- 200 {"messages": ms}
deriving DecidableEq

/-- HTTP status code attached to each `PollResult` by the source. -/
def PollResult.status : PollResult → Nat
  | .invalidToken => 403
  | .roomNotFound => 404
  | .messages _ => 200

/-- `self.get_argument("room", None)` followed by the membership guard:
`room not in config["bindings"] or room in ...` — an absent argument is
Python `None`, which is never a bindings key nor a member of
`private_rooms`, so it is rejected. -/
def pollRoomRejected (cfg : Config) : Option String → Bool
  | none => true
  | some rm => roomRejected cfg rm

/-- Python truthiness of the `room` argument at the filter guard
`if room:` (line 356). -/
def roomTruthy : Option String → Bool
  | none => false
  | some rm => rm ≠ ""

/-- `APILongPollingHandler.get` (handlers.py lines 330-360), one request
run sequentially: token check, room guard, queue drain, then the room
filter applied to whatever the drain removed.  Returns the response and
the redis state left behind. -/
def api_longpoll (cfg : Config) (authOk : Bool) (token_id : String)
    (room : Option String) (st : QState) : PollResult × QState :=
  if !authOk then (.invalidToken, st)
  else if pollRoomRejected cfg room then (.roomNotFound, st)
  else
    let (msgs, st') := drain st token_id
    let msgs := if roomTruthy room
                then msgs.filter (fun m => m.room = room.getD "")
                else msgs
    (.messages msgs, st')

/-- Concrete fixtures for closed evaluations: room `general` is bound
with no flags set, room `secret` is bound but listed private. -/
def cfgW : Config := ⟨[("general", ⟨none⟩), ("secret", ⟨none⟩)], ["secret"]⟩

/-- A trivial stand-in for the external `BaseBotInstance.is_cmd`. -/
def isCmdW : String → Bool := fun _ => false

/-- The same stand-in on optional content (API handler shape). -/
def isCmdOW : Option String → Bool := fun _ => false

/-- A stand-in for `APIClientManager.get_name`. -/
def getNameW : String → String := fun _ => "app1"

/-- A concrete message sitting in a queue for closed evaluations. -/
def msgW : Msg :=
  ⟨"Web", "alice", "general", some "hello", .Text, "2026-10-12", "12:00:00"⟩

/-- A second concrete message, belonging to a different room. -/
def msgOtherW : Msg :=
  ⟨"Web", "bob", "lounge", some "hi", .Text, "2026-10-12", "12:00:01"⟩

/-- C1: a publish (web or API, the API one with a parseable body so that
request preparation does not reject it first) whose room id is unbound or
private finishes with the 404 "Room not found" response, and the list of
messages handed to the bus is empty. -/
theorem room_not_found_rejects
    (cfg : Config) (room : String) (is_cmd : String → Bool)
    (is_cmdO : Option String → Bool) (authOk : Bool) (tid : String)
    (gname : String → String) (d t : String) (parsed : Option JsonData)
    (body : String) (jd : JsonData)
    (hbad : roomRejected cfg room = true) (hbody : body ≠ "") :
    post_message cfg is_cmd d t room parsed = (.roomNotFound, [])
    ∧ api_post_message cfg is_cmdO authOk tid gname d t room body (some jd)
        = (.roomNotFound, [])
    ∧ WebResult.roomNotFound.status = 404
    ∧ ApiResult.roomNotFound.status = 404 := by
  refine ⟨?_, ?_, rfl, rfl⟩
  · simp [post_message, hbad]
  · simp [api_post_message, hbad, hbody]

/-- Witness for C1 at room "nosuch" under `cfgW`. -/
theorem room_not_found_rejects_witness :
    roomRejected cfgW "nosuch" = true
    ∧ ("x" : String) ≠ ""
    ∧ post_message cfgW isCmdW "d" "t" "nosuch" none = (.roomNotFound, [])
    ∧ api_post_message cfgW isCmdOW true "tok1" getNameW "d" "t" "nosuch" "x"
        (some ⟨none, none, none⟩) = (.roomNotFound, []) := by
  have h := room_not_found_rejects cfgW "nosuch" isCmdW isCmdOW true "tok1"
    getNameW "d" "t" none "x" ⟨none, none, none⟩ (by decide) (by decide)
  exact ⟨by decide, by decide, h.1, h.2.1⟩

/-- C7: an API post whose credentials fail `mgr.auth` (and whose body and
room pass the earlier checks) finishes with the 403 "Invalid Token"
response, and no message is constructed or handed to the bus. -/
theorem invalid_token_no_publish
    (cfg : Config) (is_cmd : Option String → Bool) (tid : String)
    (gname : String → String) (d t room body : String) (jd : JsonData)
    (hroom : roomRejected cfg room = false) (hbody : body ≠ "") :
    api_post_message cfg is_cmd false tid gname d t room body (some jd)
        = (.invalidToken, [])
    ∧ ApiResult.invalidToken.status = 403 := by
  refine ⟨?_, rfl⟩
  simp [api_post_message, hbody, hroom]

/-- Witness for C7: failed auth on room "general" under `cfgW`. -/
theorem invalid_token_no_publish_witness :
    roomRejected cfgW "general" = false
    ∧ ("x" : String) ≠ ""
    ∧ api_post_message cfgW isCmdOW false "tok1" getNameW "d" "t" "general" "x"
        (some ⟨some "hello", none, none⟩) = (.invalidToken, []) := by
  have h := invalid_token_no_publish cfgW isCmdOW "tok1" getNameW "d" "t"
    "general" "x" ⟨some "hello", none, none⟩ (by decide) (by decide)
  exact ⟨by decide, by decide, h.1⟩

/-- C10: `APIPostMessageHandler.prepare` finishes an empty body with
400 "Cannot handle empty request" and an unparsable non-empty body with
400 "Unable to parse JSON", in both cases for every configuration, room
and auth outcome (so before any room or token check can run) and with
nothing handed to the bus. -/
theorem prepare_rejects_before_checks
    (cfg : Config) (is_cmd : Option String → Bool) (authOk : Bool)
    (tid : String) (gname : String → String) (d t room : String)
    (body : String) (parsed : Option JsonData) :
    (body = "" →
      api_post_message cfg is_cmd authOk tid gname d t room body parsed
        = (.emptyRequest, []))
    ∧ (body ≠ "" → parsed = none →
      api_post_message cfg is_cmd authOk tid gname d t room body parsed
        = (.badJson, []))
    ∧ ApiResult.emptyRequest.status = 400
    ∧ ApiResult.badJson.status = 400 := by
  refine ⟨?_, ?_, rfl, rfl⟩
  · intro hb
    simp [api_post_message, hb]
  · intro hb hp
    simp [api_post_message, hb, hp]

/-- Witness for C10: both prepare rejections at a concrete request whose
room is unbound and whose token would not authenticate, showing neither
check ran. -/
theorem prepare_rejects_before_checks_witness :
    api_post_message cfgW isCmdOW false "tok1" getNameW "d" "t" "nosuch" "" none
      = (.emptyRequest, [])
    ∧ api_post_message cfgW isCmdOW false "tok1" getNameW "d" "t" "nosuch"
        "oops" none = (.badJson, []) := by
  refine ⟨(prepare_rejects_before_checks cfgW isCmdOW false "tok1" getNameW
      "d" "t" "nosuch" "" none).1 rfl, ?_⟩
  exact (prepare_rejects_before_checks cfgW isCmdOW false "tok1" getNameW
      "d" "t" "nosuch" "oops" none).2.1 (by decide) rfl

/-- C2: the web post handler rejects empty content with a 400 and hands
nothing to the bus, but the API post handler — whose empty-content branch
calls `finish()` without `return` (handlers.py lines 390-393) — answers
400 and then still constructs the message and hands it to the bus. -/
theorem empty_content_divergence :
    post_message cfgW isCmdW "2026-10-12" "12:00:00" "general"
        (some { content := some "", nickname := some "alice", sender := none })
      = (.emptyContent, [])
    ∧ WebResult.emptyContent.status = 400
    ∧ api_post_message cfgW isCmdOW true "tok1" getNameW "2026-10-12"
        "12:00:00" "general" "{}"
        (some { content := some "", nickname := none, sender := none })
      = (.emptyContent,
         [{ channel := "API-app1", sender := "app1", room := "general",
            content := some "", mtype := .Text,
            date := "2026-10-12", time := "12:00:00" }])
    ∧ ApiResult.emptyContent.status = 400 := by
  refine ⟨by decide, rfl, by decide, rfl⟩

/-- C3 counterexample: the claim says sender "3" fails with
`InvalidSender`, but `\w` matches a digit, so the web post with nickname
"3" succeeds and is handed to the bus. -/
theorem sender_digit_accepted :
    post_message cfgW isCmdW "2026-10-12" "12:00:00" "general"
        (some { content := some "hello", nickname := some "3", sender := none })
      = (.ok, [{ channel := "Web", sender := "3", room := "general",
                 content := some "hello", mtype := .Text,
                 date := "2026-10-12", time := "12:00:00" }]) := by
  decide

/-- C3 (amended): for a web post that passes the room, posting-enabled
and content checks, a nickname blank after stripping is rejected with a
400; a nickname whose first character is ASCII but not a word character
is rejected with the 400 invalid-sender response; a nickname whose first
character is a word character passes; digits are word characters, so "3"
is accepted while "#bot" is rejected and "bot1" accepted.  (A non-ASCII
leading character is classified by the runtime's Unicode tables, outside
this model's scope, so the rejection clause requires an ASCII head.) -/
theorem sender_validation_rule
    (cfg : Config) (is_cmd : String → Bool) (d t room : String)
    (jd : JsonData)
    (hroom : roomRejected cfg room = false)
    (hpost : webPostFlag cfg room = true)
    (hcont : contentMissing jd.content = false) :
    (pyStrip (jd.nickname.getD "") = "" →
      post_message cfg is_cmd d t room (some jd) = (.noNickname, []))
    ∧ (∀ c rest, (pyStrip (jd.nickname.getD "")).data = c :: rest →
       c.toNat < 128 → isWordChar c = false →
      post_message cfg is_cmd d t room (some jd) = (.invalidSender, []))
    ∧ (∀ c rest, (pyStrip (jd.nickname.getD "")).data = c :: rest →
       isWordChar c = true →
      (post_message cfg is_cmd d t room (some jd)).1 = .ok)
    ∧ (∀ c : Char, c.isDigit = true → isWordChar c = true)
    ∧ WebResult.noNickname.status = 400
    ∧ WebResult.invalidSender.status = 400 := by
  have hne : ∀ c rest, (pyStrip (jd.nickname.getD "")).data = c :: rest →
      pyStrip (jd.nickname.getD "") ≠ "" := by
    intro c rest hdata h
    rw [h] at hdata
    have hnil : ([] : List Char) = c :: rest := hdata
    exact List.noConfusion hnil
  refine ⟨?_, ?_, ?_, ?_, rfl, rfl⟩
  · intro hs
    simp [post_message, hroom, hpost, hcont, hs]
  · intro c rest hdata _hascii hw
    have hs := hne c rest hdata
    have hsw : startsWithWordChar (pyStrip (jd.nickname.getD "")) = false := by
      simp [startsWithWordChar, hdata, hw]
    simp [post_message, hroom, hpost, hcont, hs, hsw]
  · intro c rest hdata hw
    have hs := hne c rest hdata
    have hsw : startsWithWordChar (pyStrip (jd.nickname.getD "")) = true := by
      simp [startsWithWordChar, hdata, hw]
    simp [post_message, hroom, hpost, hcont, hs, hsw]
  · intro c hc
    simp [isWordChar, Char.isAlphanum, hc]

/-- Witness for C3's amended rule: "#bot" starts with the ASCII non-word
character '#' and is rejected as invalid sender, while "bot1" is
accepted, under `cfgW` in room "general". -/
theorem sender_validation_rule_witness :
    roomRejected cfgW "general" = false
    ∧ webPostFlag cfgW "general" = true
    ∧ contentMissing (some "hello") = false
    ∧ (pyStrip "#bot").data = '#' :: "bot".data
    ∧ ('#').toNat < 128
    ∧ isWordChar '#' = false
    ∧ post_message cfgW isCmdW "d" "t" "general"
        (some { content := some "hello", nickname := some "#bot", sender := none })
      = (.invalidSender, [])
    ∧ (post_message cfgW isCmdW "d" "t" "general"
        (some { content := some "hello", nickname := some "bot1", sender := none })).1
      = .ok := by
  have h1 := sender_validation_rule cfgW isCmdW "d" "t" "general"
      { content := some "hello", nickname := some "#bot", sender := none }
      (by decide) (by decide) (by decide)
  have h2 := sender_validation_rule cfgW isCmdW "d" "t" "general"
      { content := some "hello", nickname := some "bot1", sender := none }
      (by decide) (by decide) (by decide)
  exact ⟨by decide, by decide, by decide, by decide, by decide, by decide,
    h1.2.1 '#' "bot".data (by decide) (by decide) (by decide),
    h2.2.2.1 'b' "ot1".data (by decide) (by decide)⟩

/-- Reading back the entry just written by `qset`. -/
theorem qlookup_qset (st : QState) (tk : String) (q : List Msg) :
    qlookup (qset st tk q) tk = q := by
  induction st with
  | nil => simp [qset, qlookup, List.lookup]
  | cons p rest ih =>
    obtain ⟨k, v⟩ := p
    by_cases hk : k = tk
    · simp [qset, hk, qlookup, List.lookup]
    · have hbk : (tk == k) = false := by simp [Ne.symm hk]
      simpa [qset, hk, qlookup, List.lookup, hbk] using ih

/-- After `pr.delete(queue)` the token's pending list reads back empty. -/
theorem qlookup_qdelete (st : QState) (tk : String) :
    qlookup (qdelete st tk) tk = [] := by
  induction st with
  | nil => rfl
  | cons p rest ih =>
    obtain ⟨k, v⟩ := p
    by_cases hk : k = tk
    · simpa [qdelete, hk, qlookup, List.lookup] using ih
    · have hbk : (tk == k) = false := by simp [Ne.symm hk]
      simpa [qdelete, hk, qlookup, List.lookup, hbk] using ih

/-- C4: drained sequentially, a token with no pending entries yields the
empty sequence and leaves the state alone; after a single enqueue the
next drain yields exactly that message and clears the token's list, so a
further drain yields nothing — each entry is delivered at most once. -/
theorem drain_delivers_once (st : QState) (tk : String) (m : Msg)
    (h : qlookup st tk = []) :
    drain st tk = ([], st)
    ∧ (drain (enqueue st tk m) tk).1 = [m]
    ∧ qlookup ((drain (enqueue st tk m) tk).2) tk = []
    ∧ (drain ((drain (enqueue st tk m) tk).2) tk).1 = [] := by
  have h1 : drain st tk = ([], st) := by
    simp [drain, h]
  have hq : qlookup (enqueue st tk m) tk = [m] := by
    simp [enqueue, h, qlookup_qset]
  have h2 : drain (enqueue st tk m) tk = ([m], qdelete (enqueue st tk m) tk) := by
    simp [drain, hq]
  have h3 : qlookup (qdelete (enqueue st tk m) tk) tk = [] :=
    qlookup_qdelete _ _
  refine ⟨h1, by simp [h2], by simpa [h2] using h3, ?_⟩
  rw [h2]
  simp [drain, h3]

/-- Witness for C4: token "tok1" on the empty store, enqueueing `msgW`. -/
theorem drain_delivers_once_witness :
    qlookup ([] : QState) "tok1" = []
    ∧ drain ([] : QState) "tok1" = ([], [])
    ∧ (drain (enqueue [] "tok1" msgW) "tok1").1 = [msgW]
    ∧ (drain ((drain (enqueue [] "tok1" msgW) "tok1").2) "tok1").1 = [] := by
  have h := drain_delivers_once [] "tok1" msgW rfl
  exact ⟨rfl, h.1, h.2.1, h.2.2.2⟩

/-- C5: a long-poll with a (truthy, bound, non-private) room filter first
removes the token's whole pending list from the store and only then
filters by room: the response carries exactly the matching entries, a
non-matching entry is in the response of nobody, the token's list is left
empty, and a subsequent poll by the same token returns no messages — the
filtered-out entries are lost, not requeued. -/
theorem filter_after_drain
    (cfg : Config) (tk rm : String) (st : QState) (q : List Msg)
    (hroom : roomRejected cfg rm = false) (hrm : rm ≠ "")
    (hq : qlookup st tk = q) (hne : q ≠ []) :
    api_longpoll cfg true tk (some rm) st
        = (.messages (q.filter (fun m => m.room = rm)), qdelete st tk)
    ∧ (∀ m ∈ q, ¬ m.room = rm → m ∉ q.filter (fun m => m.room = rm))
    ∧ qlookup (qdelete st tk) tk = []
    ∧ (api_longpoll cfg true tk (some rm) (qdelete st tk)).1 = .messages [] := by
  have hlen : 0 < q.length := List.length_pos.mpr hne
  have hdrain : drain st tk = (q, qdelete st tk) := by
    simp only [drain, hq]
    rw [if_pos hlen]
  have hdel : qlookup (qdelete st tk) tk = [] := qlookup_qdelete st tk
  refine ⟨?_, ?_, hdel, ?_⟩
  · simp [api_longpoll, pollRoomRejected, hroom, hdrain, roomTruthy, hrm]
  · intro m hm hmm
    simp [List.mem_filter, hmm]
  · simp [api_longpoll, pollRoomRejected, hroom, drain, hdel, roomTruthy, hrm]

/-- Witness for C5: token "tok1" holds one message for room "general" and
one for room "lounge"; polling with filter "general" returns only the
first, and the "lounge" message is gone for good. -/
theorem filter_after_drain_witness :
    roomRejected cfgW "general" = false
    ∧ qlookup [("tok1", [msgW, msgOtherW])] "tok1" = [msgW, msgOtherW]
    ∧ api_longpoll cfgW true "tok1" (some "general") [("tok1", [msgW, msgOtherW])]
        = (.messages [msgW], [])
    ∧ msgOtherW ∉ [msgW, msgOtherW].filter (fun m => m.room = "general")
    ∧ (api_longpoll cfgW true "tok1" (some "general") ([] : QState)).1
        = .messages [] := by
  have h := filter_after_drain cfgW "tok1" "general"
      [("tok1", [msgW, msgOtherW])] [msgW, msgOtherW]
      (by decide) (by decide) rfl (by decide)
  refine ⟨by decide, rfl, ?_, ?_, ?_⟩
  · have := h.1
    simpa [qdelete, msgW, msgOtherW] using this
  · exact h.2.1 msgOtherW (by simp) (by decide)
  · have := h.2.2.2
    simpa [qdelete] using this

/-- Local state of one in-flight drain of `APILongPollingHandler.get`:
a program counter plus the values of its `l` and `msgs` locals.  pc 0 =
about to run `llen`; 1 = about to branch on `l`; 2 = about to run
`pr.delete`; 3 = finished. -/
structure DrainProc where
  pc : Nat
  len : Nat
  out : List Msg
deriving DecidableEq

/-- A drain that has not started. -/
def initDrain : DrainProc := ⟨0, 0, []⟩

/-- One redis operation of a drain coroutine against the shared queue
`q`.  The source yields to the event loop between `llen` (line 345),
`lrange` (line 348) and `delete` (line 349) — they are separate awaited
commands, the last on a different connection — so distinct requests for
the same token can interleave at exactly these points. -/
def drainStep (q : List Msg) (p : DrainProc) : List Msg × DrainProc :=
  match p.pc with
  | 0 => (q, { p with pc := 1, len := q.length })   -- l = yield llen
  | 1 => if p.len > 0
         then (q, { p with pc := 2, out := q })     -- msgs = yield lrange 0 -1
         else (q, { p with pc := 3, out := [] })    -- blpop branch (times out)
  | 2 => ([], { p with pc := 3 })                   -- pr.delete(queue)
  | _ => (q, p)

/-- Run two concurrent drains of the same token queue under a schedule:
`false` steps request A, `true` steps request B. -/
def runTwo : List Bool → List Msg → DrainProc → DrainProc →
    List Msg × DrainProc × DrainProc
  | [], q, a, b => (q, a, b)
  | s :: rest, q, a, b =>
    if s then
      let (q', b') := drainStep q b
      runTwo rest q' a b'
    else
      let (q', a') := drainStep q a
      runTwo rest q' a' b

/-- C6 counterexample: with one message pending, two concurrent drains of
the same token interleaved as A-llen, B-llen, A-lrange, B-lrange,
A-delete, B-delete both return that message — the read-and-clear is not
atomic, and an entry is delivered to two callers. -/
theorem drain_race_double_delivery :
    (runTwo [false, true, false, true, false, true]
        [msgW] initDrain initDrain).2.1.out = [msgW]
    ∧ (runTwo [false, true, false, true, false, true]
        [msgW] initDrain initDrain).2.2.out = [msgW] := by
  constructor <;> rfl

/-- C8: a long-poll request with a valid token but no `room` argument is
rejected with 404 "Room not found" before any drain happens — `None` is
never a bindings key — even though one message is pending; the claim that
the room filter is optional fails on the code. -/
theorem longpoll_requires_room :
    api_longpoll cfgW true "tok1" none [("tok1", [msgW])]
        = (.roomNotFound, [("tok1", [msgW])])
    ∧ PollResult.roomNotFound.status = 404 := by
  exact ⟨rfl, rfl⟩

/-- The posting-disabled rejection of the web post handler fires exactly
when the room passes the binding guard and its `web_post` flag resolves
to false. -/
theorem post_message_disabled_iff (cfg : Config) (is_cmd : String → Bool)
    (d t room : String) (parsed : Option JsonData) :
    ((post_message cfg is_cmd d t room parsed).1 = .postingDisabled
      ↔ (roomRejected cfg room = false ∧ webPostFlag cfg room = false)) := by
  by_cases hrej : roomRejected cfg room = true
  · simp [post_message, hrej]
  · rw [Bool.not_eq_true] at hrej
    by_cases hflag : webPostFlag cfg room = false
    · simp [post_message, hrej, hflag]
    · have hne : (post_message cfg is_cmd d t room parsed).1 ≠ .postingDisabled := by
        rcases parsed with _ | jd
        · simp [post_message, hrej, hflag]
        · by_cases hc : contentMissing jd.content = true
          · simp [post_message, hrej, hflag, hc]
          · by_cases hs : pyStrip (jd.nickname.getD "") = ""
            · simp [post_message, hrej, hflag, hc, hs]
            · by_cases hw : startsWithWordChar (pyStrip (jd.nickname.getD "")) = true
              · simp [post_message, hrej, hflag, hc, hs, hw]
              · simp [post_message, hrej, hflag, hc, hs, hw]
      simp [hne, hflag]

/-- C9: given that a room is bound, the web post handler answers
"Web post is disabled" exactly when the room is not private and its
binding sets `web_post` to false; in particular a binding that leaves
`web_post` unset permits web posting — the flag defaults to enabled. -/
theorem web_post_default_enabled (cfg : Config) (is_cmd : String → Bool)
    (d t room : String) (parsed : Option JsonData) (b : Binding)
    (hlook : cfg.bindings.lookup room = some b) :
    ((post_message cfg is_cmd d t room parsed).1 = .postingDisabled
      ↔ (roomPrivate cfg room = false ∧ b.web_post = some false)) := by
  rw [post_message_disabled_iff]
  have hb : roomBound cfg room = true := by simp [roomBound, hlook]
  have hrej : roomRejected cfg room = roomPrivate cfg room := by
    simp [roomRejected, hb]
  have hf : webPostFlag cfg room = b.web_post.getD true := by
    simp [webPostFlag, hlook]
  rw [hrej, hf]
  rcases hwp : b.web_post with _ | x
  · simp
  · rcases x <;> simp

/-- Witness for C9: under `cfgW` room "general" is bound with `web_post`
unset, and a concrete post is not rejected as posting-disabled. -/
theorem web_post_default_enabled_witness :
    cfgW.bindings.lookup "general" = some ⟨none⟩
    ∧ (post_message cfgW isCmdW "d" "t" "general" none).1 ≠ .postingDisabled := by
  have h := web_post_default_enabled cfgW isCmdW "d" "t" "general" none
      ⟨none⟩ (by decide)
  refine ⟨by decide, fun hEq => ?_⟩
  have := (h.mp hEq).2
  simp at this
